import Mathlib

/-!
Shallow embedding of the RustInPeace renderer (`src/main.rs`):
window-centering geometry, the render-loop event handler, the animation
scalar, frame pacing, and the startup / log-initialization error paths.
Machine integers are modelled as `Nat`/`Int` with explicit `% 2^32`
where wrap-around matters; fallible operations are `Except` values
supplied by an environment record, and Rust `expect`/`unwrap` panics are
modelled as an explicit `panicked` outcome.
-/

namespace RustInPeace

/-- Logical window size, from `LogicalSize::new(1280, 600)` in `main`. -/
def window_width : Nat := 1280

/-- Logical window height, from `LogicalSize::new(1280, 600)` in `main`. -/
def window_height : Nat := 600

/-- The constant `max_fps: u64 = 60` in the event-loop closure. -/
def max_fps : Nat := 60

/-- The inter-frame wait budget `1_000_000_000 / max_fps` in nanoseconds,
computed with `u64` (truncating) division, as in
`Duration::from_nanos(1_000_000_000 / max_fps)`. -/
def frame_budget_ns : Nat := 1000000000 / max_fps

/-- The modulus `2^32` of `u32` arithmetic. -/
def u32_mod : Nat := 2 ^ 32

/-- Wrapping `u32` subtraction `a - b` for `a b : Nat` representing `u32`
values (callers keep them below `u32_mod`): release-mode Rust wraps on
underflow, giving `(a + 2^32 - b) mod 2^32`. -/
def u32_sub (a b : Nat) : Nat := (a + u32_mod - b % u32_mod) % u32_mod

/-- The window position computed in `main` from the logical size of the primary
monitor `(W, H)`:
`LogicalPosition::new(monitor_size.width / 2 - window_size.width / 2,
monitor_size.height / 2 - window_size.height / 2)` with `u32` arithmetic. -/
def window_position (W H : Nat) : Nat × Nat :=
  (u32_sub (W / 2) (window_width / 2), u32_sub (H / 2) (window_height / 2))

/-- The formula stated by the specification for the window position:
`((W - w) / 2, (H - h) / 2)` over the integers.  This definition follows
the words of the spec, to be compared against `window_position`, which is
translated from the source. -/
def spec_window_position (W H w h : Int) : Int × Int :=
  ((W - w) / 2, (H - h) / 2)

/-- The animation scalar computed each frame in the `MainEventsCleared`
branch: `(((Utc::now().timestamp_millis() - start_time) as f32) / 700.0).sin()`,
as a function of the elapsed milliseconds `e`. -/
noncomputable def triangle_animation_t (e : ℝ) : ℝ := Real.sin (e / 700)

/-! ### Event model (glutin event types, as far as `main` inspects them) -/

/-- Key codes: the source only distinguishes `Escape` from every other
key, so a few representative other keys are carried alongside it. -/
inductive VirtualKeyCode
  | Escape
  | Space
  | Return
  | A
  | B
  deriving DecidableEq, Repr

/-- The `ElementState` of a keyboard event (pressed or released); the source
never reads this field. -/
inductive ElementState
  | Pressed
  | Released
  deriving DecidableEq, Repr

/-- The fields of `KeyboardInput` that the source binds (`input`); the
match reads only `input.virtual_keycode`. -/
structure KeyboardInputData where
  state : ElementState
  virtual_keycode : Option VirtualKeyCode
  deriving DecidableEq, Repr

/-- Window events, as far as the `match event` in the source distinguishes
them: `CloseRequested`, `KeyboardInput`, and a sample of the events that
fall into the `_ => return` arm. -/
inductive WindowEvent
  | CloseRequested
  | KeyboardInput (input : KeyboardInputData)
  | Resized (w h : Nat)
  | Moved (x y : Int)
  | Focused (b : Bool)
  deriving DecidableEq, Repr

/-- Top-level glutin events, as far as the `match ev` in the source
distinguishes them: `WindowEvent`, `MainEventsCleared`, and a sample of
the events that fall into the `_ => ()` arm. -/
inductive Event
  | WindowEvent (event : WindowEvent)
  | MainEventsCleared
  | RedrawRequested
  | NewEvents
  | LoopDestroyed
  deriving DecidableEq, Repr

/-- The `ControlFlow` values assigned by the source: `WaitUntil(next_frame_time)`
or `Exit`. -/
inductive ControlFlow
  | WaitUntil (deadline : Nat)
  | Exit
  deriving DecidableEq, Repr

/-- The glium `DrawError` (the source only propagates it through
`expect`, so only its debug rendering matters). -/
inductive DrawError
  | mk (detail : String)
  deriving DecidableEq, Repr

/-- The glium `SwapBuffersError` from `target.finish()`. -/
inductive SwapBuffersError
  | mk (detail : String)
  deriving DecidableEq, Repr

/-- Debug rendering of a `DrawError`, as interpolated by
the `expect` panic message. -/
def reprDrawError : DrawError → String
  | .mk detail => detail

/-- Per-frame device outcomes: what the frame target of `display.draw()` returns
from `.draw(..)` and `.finish()` this frame. -/
structure DrawEnv where
  draw_result : Except DrawError Unit
  finish_result : Except SwapBuffersError Unit

/-- Whether the process is still running after a handler invocation, or
has terminated via a Rust panic (`expect` on a per-frame failure). -/
inductive ProcessOutcome
  | running
  | panicked (msg : String)
  deriving DecidableEq, Repr

/-- Result of one invocation of the event-loop closure: the control flow
it left behind, the (possibly updated) animation scalar, whether a draw
call was issued this invocation, and whether the process survived. -/
structure StepOutput where
  control_flow : ControlFlow
  t : ℝ
  drew : Bool
  outcome : ProcessOutcome

/-- One invocation of the closure passed to `event_loop.run`, translated
from `src/main.rs` lines 130–185.  The closure first overwrites
`*control_flow` with `WaitUntil(now + 1s/max_fps)` (so the previous
control-flow value is never read), then matches on the event:
`CloseRequested` and `Escape` keyboard input set `Exit` and return;
other window events and other top-level events change nothing;
`MainEventsCleared` recomputes `triangle_animation_t` from the elapsed
milliseconds and performs the clear/draw/finish sequence, where a failed
`draw` or `finish` panics through `expect`. -/
noncomputable def handle_event (env : DrawEnv) (start_ms now_ms : Int)
    (now_instant : Nat) (t : ℝ) (ev : Event) : StepOutput :=
  let cf := ControlFlow.WaitUntil (now_instant + frame_budget_ns)
  match ev with
  | .WindowEvent we =>
    match we with
    | .CloseRequested => ⟨.Exit, t, false, .running⟩
    | .KeyboardInput input =>
      match input.virtual_keycode with
      | some kc =>
        match kc with
        | .Escape => ⟨.Exit, t, false, .running⟩
        | _ => ⟨cf, t, false, .running⟩
      | none => ⟨cf, t, false, .running⟩
    | _ => ⟨cf, t, false, .running⟩
  | .MainEventsCleared =>
    let t' := triangle_animation_t ((now_ms - start_ms : Int) : ℝ)
    match env.draw_result with
    | .error e =>
      ⟨cf, t', true, .panicked ("Failed to draw frame: " ++ reprDrawError e)⟩
    | .ok _ =>
      match env.finish_result with
      | .error _ => ⟨cf, t', true, .panicked "Failed to swap buffers"⟩
      | .ok _ => ⟨cf, t', true, .running⟩
  | _ => ⟨cf, t, false, .running⟩

/-- Event-loop driver, modelling the documented glutin `run` contract: the
closure is invoked once per delivered event, and once `ControlFlow::Exit`
is observed (or the closure panics) no further events are delivered.
Returns the number of draw calls issued while processing the event list. -/
noncomputable def draws_from (env : DrawEnv) (start_ms now_ms : Int)
    (now_instant : Nat) (t : ℝ) : List Event → Nat
  | [] => 0
  | ev :: rest =>
    let out := handle_event env start_ms now_ms now_instant t ev
    (if out.drew then 1 else 0) +
      (match out.control_flow, out.outcome with
       | .Exit, _ => 0
       | _, .panicked _ => 0
       | _, .running => draws_from env start_ms now_ms now_instant out.t rest)

/-! ### Startup model (`main` before the event loop, and `init_log`) -/

/-- A monitor as `main` uses it: its logical size
(`monitor.size().to_logical(monitor.scale_factor())`), already converted
to logical coordinates. -/
structure Monitor where
  logical_width : Nat
  logical_height : Nat
  deriving DecidableEq, Repr

/-- The glium `ProgramCreationError` as far as the error paths of this
program expose it: a compilation failure carries the diagnostic log
(and the shader type), other variants are collapsed. -/
inductive ProgramCreationError
  | CompilationError (log : String) (shader_type : String)
  | LinkingError (log : String)
  deriving DecidableEq, Repr

/-- Debug rendering (derived-`Debug` style) of a
`ProgramCreationError`, as interpolated into the `expect` panic message. -/
def reprProgramCreationError : ProgramCreationError → String
  | .CompilationError log ty => "CompilationError(\"" ++ log ++ "\", " ++ ty ++ ")"
  | .LinkingError log => "LinkingError(\"" ++ log ++ "\")"

/-- Host/device responses that the startup of `main` consumes, in source
order: the primary monitor (if any), the result of
`glium::Display::new`, the result of `glium::VertexBuffer::new`, and the
result of `glium::Program::from_source`.  Errors are carried as the
strings / values interpolated into the corresponding messages. -/
structure StartupEnv where
  primary_monitor : Option Monitor
  display_result : Except String Unit
  vbo_result : Except String Unit
  program_result : Except ProgramCreationError Unit

/-- How the startup of `main` ends: `exited code` models `process::exit(code)`
after an `error!` log, `panicked msg` models a Rust panic raised by
`unwrap`/`expect` (which terminates the process with status 101), and
`entered_loop pos` means control reached `event_loop.run` with the
window positioned at `pos`. -/
inductive StartupOutcome
  | exited (code : Int)
  | panicked (msg : String)
  | entered_loop (pos : Nat × Nat)
  deriving DecidableEq, Repr

/-- Observable trace of the startup of `main`: the `error!` messages logged,
whether window creation was attempted (`glium::Display::new` called) and
whether it succeeded, and the outcome. -/
structure StartupTrace where
  errors : List String
  window_create_attempted : Bool
  window_created : Bool
  outcome : StartupOutcome
  deriving DecidableEq, Repr

/-- The startup sequence of `main`, translated from `src/main.rs` lines 44–128:
check `event_loop.primary_monitor()` (on `None`, log
`"No monitor available! Launch cannot proceed."` and `exit(-1)` before
any window is created); compute the centered window position; create the
display (on `Err`, log the failure and `exit(-1)`); build the vertex
buffer with `.unwrap()`; compile the shader program with
`.expect("Failed to compile shader")`, whose panic message appends the
debug rendering of the error. -/
def startup (env : StartupEnv) : StartupTrace :=
  match env.primary_monitor with
  | none =>
    ⟨["No monitor available! Launch cannot proceed."], false, false, .exited (-1)⟩
  | some monitor =>
    let pos := window_position monitor.logical_width monitor.logical_height
    match env.display_result with
    | .error e =>
      ⟨["Failed to create window! Error: " ++ e], true, false, .exited (-1)⟩
    | .ok _ =>
      match env.vbo_result with
      | .error e =>
        ⟨[], true, true,
          .panicked ("called `Result::unwrap()` on an `Err` value: " ++ e)⟩
      | .ok _ =>
        match env.program_result with
        | .error e =>
          ⟨[], true, true,
            .panicked ("Failed to compile shader: " ++ reprProgramCreationError e)⟩
        | .ok _ => ⟨[], true, true, .entered_loop pos⟩

/-- The process exit status implied by a startup outcome: `exit(code)`
exits with `code`, a Rust panic terminates the process with status 101,
and `entered_loop` has not exited. -/
def exit_status : StartupOutcome → Option Int
  | .exited code => some code
  | .panicked _ => some 101
  | .entered_loop _ => none

/-! ### `init_log` -/

/-- How `init_log` ends: either the loggers are initialized and the
function returns, or the process exits via `exit(-1)`. -/
inductive InitLogOutcome
  | initialized
  | exited (code : Int)
  deriving DecidableEq, Repr

/-- Observable trace of `init_log`: the `println!` messages emitted and
the outcome. -/
structure InitLogTrace where
  printed : List String
  outcome : InitLogOutcome
  deriving DecidableEq, Repr

/-- The function `init_log`, translated from `src/main.rs` lines 188–241:
`fs::create_dir_all("Logs/")` failure only prints a warning and
execution continues; `File::create` failure prints an error and calls
`exit(-1)`; on success the loggers are initialized and the function
returns.  `dir_created` is the result of `create_dir_all`, `file_result`
the result of `File::create` (carrying the rendered `io::Error`). -/
def init_log (dir_created : Bool) (file_result : Except String Unit) : InitLogTrace :=
  let dir_msgs :=
    if dir_created then []
    else ["Failed to create logs directory! The file creation may error."]
  match file_result with
  | .ok _ => ⟨dir_msgs, .initialized⟩
  | .error e =>
    ⟨dir_msgs ++
      ["Failed to create log file! The application will now exit. Error: " ++ e],
      .exited (-1)⟩

/-! ### Claims -/

/-- C6: with `max_fps = 60`, the inter-frame wait budget is exactly
`16_666_666` nanoseconds, i.e. `1_000_000_000 / 60` under truncating
(`u64`) division, and every handler invocation schedules
`WaitUntil (now + frame_budget_ns)` before dispatching on the event. -/
theorem frame_budget_is_16666666 :
    frame_budget_ns = 16666666 ∧
    frame_budget_ns = 1000000000 / 60 ∧
    ∀ env start now inst t,
      (handle_event env start now inst t .NewEvents).control_flow =
        .WaitUntil (inst + frame_budget_ns) := by
  refine ⟨by norm_num [frame_budget_ns, max_fps], rfl, ?_⟩
  intro env start now inst t
  rfl

/-- C4: for every elapsed time `e` (milliseconds), the animation scalar
is `sin (e / 700)` and lies in `[-1, 1]`; moreover the value the handler
stores on `MainEventsCleared` is `triangle_animation_t` of the elapsed
time alone — it does not depend on the previous scalar (no hidden
accumulator, no frame count). -/
theorem animation_t_formula_and_bounds (e : ℝ) :
    triangle_animation_t e = Real.sin (e / 700) ∧
    -1 ≤ triangle_animation_t e ∧
    triangle_animation_t e ≤ 1 ∧
    ∀ env start now inst (t1 t2 : ℝ),
      (handle_event env start now inst t1 .MainEventsCleared).t =
          triangle_animation_t ((now - start : Int) : ℝ) ∧
      (handle_event env start now inst t1 .MainEventsCleared).t =
          (handle_event env start now inst t2 .MainEventsCleared).t := by
  refine ⟨rfl, Real.neg_one_le_sin _, Real.sin_le_one _, ?_⟩
  intro env start now inst t1 t2
  rcases env with ⟨dr, fr⟩
  cases dr <;> cases fr <;> simp [handle_event]

/-- C5 counterexample: for a monitor narrower than the window
(`W = 640 < 1280`), the `u32` computation of the code
`W/2 - window_width/2` wraps (in release mode; debug mode panics), so
the computed x-position is not the `(W - w) / 2` of the spec. -/
theorem window_position_spec_mismatch_small_monitor :
    ((window_position 640 1080).1 : Int) ≠
      (spec_window_position 640 1080 1280 600).1 := by
  decide

/-- C5 amended: for every monitor logical size `(W, H)` in `u32` range
with `W ≥ 1280` and `H ≥ 600` (monitor at least as large as the window),
the computed position equals the `((W - w)/2, (H - h)/2)` of the spec; in
particular `(1920, 1080)` yields `(320, 240)`. -/
theorem window_position_centered (W H : Nat)
    (hW : window_width ≤ W) (hH : window_height ≤ H)
    (hW32 : W < u32_mod) (hH32 : H < u32_mod) :
    ((window_position W H).1 : Int) =
        (spec_window_position W H window_width window_height).1 ∧
    ((window_position W H).2 : Int) =
        (spec_window_position W H window_width window_height).2 ∧
    window_position 1920 1080 = (320, 240) := by
  refine ⟨?_, ?_, by decide⟩ <;>
    · simp only [window_position, spec_window_position, u32_sub, u32_mod,
        window_width, window_height] at *
      omega

/-- C5 witness: the amended theorem applied at the concrete monitor size
`1920 × 1080` from the test vector of the spec. -/
theorem window_position_centered_witness :
    ((window_position 1920 1080).1 : Int) =
        (spec_window_position 1920 1080 window_width window_height).1 ∧
    ((window_position 1920 1080).2 : Int) =
        (spec_window_position 1920 1080 window_width window_height).2 ∧
    window_position 1920 1080 = (320, 240) :=
  window_position_centered 1920 1080 (by norm_num [window_width])
    (by norm_num [window_height]) (by norm_num [u32_mod]) (by norm_num [u32_mod])

/-- C10: the `u32` subtraction `monitor/2 - window/2` underflows exactly
when the monitor is smaller than the window on that axis
(`W/2 < 1280/2 ↔ W < 1280`, `H/2 < 600/2 ↔ H < 600`, using that 1280 and
600 are even); under the precondition `W ≥ 1280 ∧ H ≥ 600` the
computation is wrap-free and equals the true difference, and below it
the wrapped value differs from the mathematical difference. -/
theorem centering_underflow_iff (W H : Nat)
    (hW32 : W < u32_mod) (hH32 : H < u32_mod) :
    (W / 2 < window_width / 2 ↔ W < window_width) ∧
    (H / 2 < window_height / 2 ↔ H < window_height) ∧
    (window_width ≤ W →
      (window_position W H).1 = W / 2 - window_width / 2) ∧
    (window_height ≤ H →
      (window_position W H).2 = H / 2 - window_height / 2) ∧
    (W < window_width →
      ((window_position W H).1 : Int) ≠
        (W / 2 : Nat) - ((window_width / 2 : Nat) : Int)) := by
  refine ⟨?_, ?_, ?_, ?_, ?_⟩ <;>
    · simp only [window_position, u32_sub, u32_mod, window_width,
        window_height] at *
      omega

/-- C10 witness: the underflow characterisation applied at the concrete
monitor size `1920 × 1080`, where no underflow occurs. -/
theorem centering_underflow_iff_witness :
    (window_position 1920 1080).1 = 1920 / 2 - window_width / 2 ∧
    ¬ (1920 / 2 < window_width / 2) :=
  ⟨(centering_underflow_iff 1920 1080 (by norm_num [u32_mod])
      (by norm_num [u32_mod])).2.2.1 (by norm_num [window_width]),
   fun h => by
    exact absurd ((centering_underflow_iff 1920 1080 (by norm_num [u32_mod])
      (by norm_num [u32_mod])).1.mp h) (by norm_num [window_width])⟩

/-- C1 counterexample: when the device rejects the draw call, the source
runs `.expect("Failed to draw frame")`, which panics — the process
terminates rather than continuing to the next iteration.  Evaluated at a
concrete frame where `draw` returns an error. -/
theorem draw_failure_terminates_process :
    (handle_event ⟨.error (.mk "GlContextLost"), .ok ()⟩ 0 100 0 0
        .MainEventsCleared).outcome =
      .panicked "Failed to draw frame: GlContextLost" ∧
    (handle_event ⟨.error (.mk "GlContextLost"), .ok ()⟩ 0 100 0 0
        .MainEventsCleared).outcome ≠ .running := by
  constructor <;> simp [handle_event, reprDrawError]

/-- C1 amended: for every frame in which the draw call fails, the
process panics via `expect` with a message naming the failed draw and
the device error; the render loop does not continue — no event after the
failing frame is processed, so exactly the one (failed) draw call of
that frame is ever issued. -/
theorem draw_failure_panics (env : DrawEnv) (start now : Int) (inst : Nat)
    (t : ℝ) (e : DrawError) (h : env.draw_result = .error e) :
    (handle_event env start now inst t .MainEventsCleared).outcome =
      .panicked ("Failed to draw frame: " ++ reprDrawError e) ∧
    ∀ rest, draws_from env start now inst t (.MainEventsCleared :: rest) = 1 := by
  rcases env with ⟨dr, fr⟩
  cases h
  constructor
  · simp [handle_event]
  · intro rest
    simp [draws_from, handle_event]

/-- C1 amended witness: the panic on a concrete failing frame, with an
empty tail of further events. -/
theorem draw_failure_panics_witness :
    (handle_event ⟨.error (.mk "DeviceLost"), .ok ()⟩ 5 705 0 0
        .MainEventsCleared).outcome =
      .panicked ("Failed to draw frame: " ++ reprDrawError (.mk "DeviceLost")) ∧
    ∀ rest, draws_from ⟨.error (.mk "DeviceLost"), .ok ()⟩ 5 705 0 0
        (.MainEventsCleared :: rest) = 1 :=
  draw_failure_panics ⟨.error (.mk "DeviceLost"), .ok ()⟩ 5 705 0 0
    (.mk "DeviceLost") rfl

/-- C2: in the running loop, a keyboard event carrying `Escape` (pressed
or released — the source never reads the element state) sets
`ControlFlow::Exit` without touching `t`; a keyboard event with any
other (or no) key code, any other window event except `CloseRequested`,
and any other delivered event except the `MainEventsCleared` idle
signal, leaves the control flow at the running `WaitUntil` continuation,
leaves `t` unchanged, and draws nothing. -/
theorem escape_exits_other_events_ignored (env : DrawEnv) (start now : Int)
    (inst : Nat) (t : ℝ) :
    (∀ st : ElementState,
      (handle_event env start now inst t
          (.WindowEvent (.KeyboardInput ⟨st, some .Escape⟩))).control_flow =
        .Exit ∧
      (handle_event env start now inst t
          (.WindowEvent (.KeyboardInput ⟨st, some .Escape⟩))).t = t) ∧
    (∀ input : KeyboardInputData, input.virtual_keycode ≠ some .Escape →
      handle_event env start now inst t (.WindowEvent (.KeyboardInput input)) =
        ⟨.WaitUntil (inst + frame_budget_ns), t, false, .running⟩) ∧
    (∀ we : WindowEvent, we ≠ .CloseRequested →
      (∀ i, we ≠ .KeyboardInput i) →
      handle_event env start now inst t (.WindowEvent we) =
        ⟨.WaitUntil (inst + frame_budget_ns), t, false, .running⟩) ∧
    (∀ ev : Event, ev ≠ .MainEventsCleared → (∀ we, ev ≠ .WindowEvent we) →
      handle_event env start now inst t ev =
        ⟨.WaitUntil (inst + frame_budget_ns), t, false, .running⟩) := by
  refine ⟨fun st => ⟨rfl, rfl⟩, ?_, ?_, ?_⟩
  · rintro ⟨st, vk⟩ hvk
    cases vk with
    | none => rfl
    | some kc => cases kc <;> first | exact absurd rfl hvk | rfl
  · intro we hclose hkey
    cases we with
    | CloseRequested => exact absurd rfl hclose
    | KeyboardInput i => exact absurd rfl (hkey i)
    | Resized w h => rfl
    | Moved x y => rfl
    | Focused b => rfl
  · intro ev hmec hwe
    cases ev with
    | WindowEvent we => exact absurd rfl (hwe we)
    | MainEventsCleared => exact absurd rfl hmec
    | RedrawRequested => rfl
    | NewEvents => rfl
    | LoopDestroyed => rfl

/-- C2 witness: the event dichotomy at concrete inputs — an Escape
press exits; a Space press, a resize, and a redraw request all leave the
running continuation and the scalar `t = 7` untouched. -/
theorem escape_exits_other_events_ignored_witness :
    (handle_event ⟨.ok (), .ok ()⟩ 0 0 0 (7 : ℝ)
        (.WindowEvent (.KeyboardInput ⟨.Pressed, some .Escape⟩))).control_flow =
      .Exit ∧
    handle_event ⟨.ok (), .ok ()⟩ 0 0 0 (7 : ℝ)
        (.WindowEvent (.KeyboardInput ⟨.Pressed, some .Space⟩)) =
      ⟨.WaitUntil (0 + frame_budget_ns), 7, false, .running⟩ ∧
    handle_event ⟨.ok (), .ok ()⟩ 0 0 0 (7 : ℝ)
        (.WindowEvent (.Resized 640 480)) =
      ⟨.WaitUntil (0 + frame_budget_ns), 7, false, .running⟩ ∧
    handle_event ⟨.ok (), .ok ()⟩ 0 0 0 (7 : ℝ) .RedrawRequested =
      ⟨.WaitUntil (0 + frame_budget_ns), 7, false, .running⟩ :=
  ⟨((escape_exits_other_events_ignored ⟨.ok (), .ok ()⟩ 0 0 0 7).1 .Pressed).1,
   (escape_exits_other_events_ignored ⟨.ok (), .ok ()⟩ 0 0 0 7).2.1
     ⟨.Pressed, some .Space⟩ (by simp),
   (escape_exits_other_events_ignored ⟨.ok (), .ok ()⟩ 0 0 0 7).2.2.1
     (.Resized 640 480) (by simp) (by simp),
   (escape_exits_other_events_ignored ⟨.ok (), .ok ()⟩ 0 0 0 7).2.2.2
     .RedrawRequested (by simp) (by simp)⟩

/-- C3: a close-request event makes the handler set `ControlFlow::Exit`
and return before any draw, regardless of the current animation state
and times (the source overwrites the incoming control flow before
reading it, so this holds from any run state); under the glutin `Exit`
contract no later event is delivered, so zero draw calls are issued from
that event on, whatever events were still pending. -/
theorem close_request_exits_no_further_draw (env : DrawEnv) (start now : Int)
    (inst : Nat) (t : ℝ) :
    (handle_event env start now inst t
        (.WindowEvent .CloseRequested)).control_flow = .Exit ∧
    (handle_event env start now inst t
        (.WindowEvent .CloseRequested)).drew = false ∧
    ∀ rest, draws_from env start now inst t
        (.WindowEvent .CloseRequested :: rest) = 0 := by
  refine ⟨rfl, rfl, fun rest => ?_⟩
  simp [draws_from, handle_event]

/-- C7: if no primary monitor is enumerable, startup logs
`"No monitor available! Launch cannot proceed."` and exits with the
fatal status `-1` (nonzero), without ever attempting to create a
window. -/
theorem no_monitor_fatal_exit (env : StartupEnv)
    (h : env.primary_monitor = none) :
    (startup env).outcome = .exited (-1) ∧
    exit_status (startup env).outcome = some (-1) ∧
    (-1 : Int) ≠ 0 ∧
    (startup env).errors = ["No monitor available! Launch cannot proceed."] ∧
    (startup env).window_create_attempted = false ∧
    (startup env).window_created = false := by
  rcases env with ⟨pm, d, v, p⟩
  cases h
  exact ⟨rfl, rfl, by norm_num, rfl, rfl, rfl⟩

/-- C7 witness: a concrete environment with zero monitors. -/
theorem no_monitor_fatal_exit_witness :
    (startup ⟨none, .ok (), .ok (), .ok ()⟩).outcome = .exited (-1) ∧
    exit_status (startup ⟨none, .ok (), .ok (), .ok ()⟩).outcome = some (-1) ∧
    (-1 : Int) ≠ 0 ∧
    (startup ⟨none, .ok (), .ok (), .ok ()⟩).errors =
      ["No monitor available! Launch cannot proceed."] ∧
    (startup ⟨none, .ok (), .ok (), .ok ()⟩).window_create_attempted = false ∧
    (startup ⟨none, .ok (), .ok (), .ok ()⟩).window_created = false :=
  no_monitor_fatal_exit ⟨none, .ok (), .ok (), .ok ()⟩ rfl

/-- C8 counterexample: on a concrete failing shader compilation the
process does terminate, but nothing passes through the logging sink —
the trace of `error!` messages is empty, so no logged error message
contains the diagnostic: the failure is reported only by the `expect`
panic on stderr, refuting the claim as stated. -/
theorem shader_compile_failure_not_logged :
    (startup ⟨some ⟨1920, 1080⟩, .ok (), .ok (),
        .error (.CompilationError "0:3: syntax error" "Vertex")⟩).errors = [] ∧
    (¬ ∃ msg ∈ (startup ⟨some ⟨1920, 1080⟩, .ok (), .ok (),
        .error (.CompilationError "0:3: syntax error" "Vertex")⟩).errors,
      ∃ pre post : String, msg = pre ++ "0:3: syntax error" ++ post) ∧
    exit_status (startup ⟨some ⟨1920, 1080⟩, .ok (), .ok (),
        .error (.CompilationError "0:3: syntax error" "Vertex")⟩).outcome ≠
      none := by
  refine ⟨rfl, ?_, by simp [startup, exit_status]⟩
  rintro ⟨msg, hmem, -⟩
  simp [startup] at hmem

/-- C8 amended: if shader compilation fails with diagnostic `diag`,
startup terminates fatally through the
`expect("Failed to compile shader")` panic — exit status 101, nonzero —
whose panic message (written to stderr, not through the logging sink)
contains the compiler diagnostic as a substring; no `error!` entry is
logged. -/
theorem shader_compile_failure_fatal (env : StartupEnv) (m : Monitor)
    (diag ty : String)
    (hm : env.primary_monitor = some m)
    (hd : env.display_result = .ok ())
    (hv : env.vbo_result = .ok ())
    (hp : env.program_result = .error (.CompilationError diag ty)) :
    (startup env).outcome =
      .panicked ("Failed to compile shader: " ++
        reprProgramCreationError (.CompilationError diag ty)) ∧
    exit_status (startup env).outcome = some 101 ∧
    (101 : Int) ≠ 0 ∧
    (startup env).errors = [] ∧
    ∃ pre post : String,
      (startup env).outcome = .panicked (pre ++ diag ++ post) := by
  rcases env with ⟨pm, d, v, p⟩
  cases hm
  cases hd
  cases hv
  cases hp
  refine ⟨rfl, rfl, by norm_num, rfl, ?_⟩
  refine ⟨"Failed to compile shader: " ++ "CompilationError(\"",
    "\", " ++ ty ++ ")", ?_⟩
  simp only [startup, reprProgramCreationError, String.append_assoc]

/-- C8 witness: a concrete failing compilation whose diagnostic is
`"0:2: undeclared identifier"`. -/
theorem shader_compile_failure_fatal_witness :
    (startup ⟨some ⟨1920, 1080⟩, .ok (), .ok (),
        .error (.CompilationError "0:2: undeclared identifier" "Vertex")⟩).outcome =
      .panicked ("Failed to compile shader: " ++
        reprProgramCreationError
          (.CompilationError "0:2: undeclared identifier" "Vertex")) ∧
    exit_status (startup ⟨some ⟨1920, 1080⟩, .ok (), .ok (),
        .error (.CompilationError "0:2: undeclared identifier" "Vertex")⟩).outcome =
      some 101 ∧
    (101 : Int) ≠ 0 ∧
    (startup ⟨some ⟨1920, 1080⟩, .ok (), .ok (),
        .error (.CompilationError "0:2: undeclared identifier" "Vertex")⟩).errors =
      [] ∧
    ∃ pre post : String,
      (startup ⟨some ⟨1920, 1080⟩, .ok (), .ok (),
          .error (.CompilationError "0:2: undeclared identifier" "Vertex")⟩).outcome =
        .panicked (pre ++ "0:2: undeclared identifier" ++ post) :=
  shader_compile_failure_fatal
    ⟨some ⟨1920, 1080⟩, .ok (), .ok (),
      .error (.CompilationError "0:2: undeclared identifier" "Vertex")⟩
    ⟨1920, 1080⟩ "0:2: undeclared identifier" "Vertex" rfl rfl rfl rfl

/-- C9: failure to create the `Logs/` directory only prints a warning
and `init_log` proceeds (reaching logger initialization when the file is
created), while failure to create the log file itself exits the process
with status `-1` whether or not the directory step succeeded. -/
theorem log_dir_best_effort_file_fatal :
    (init_log false (.ok ())).outcome = .initialized ∧
    (init_log false (.ok ())).printed =
      ["Failed to create logs directory! The file creation may error."] ∧
    (init_log true (.ok ())).printed = [] ∧
    (init_log true (.ok ())).outcome = .initialized ∧
    ∀ (d : Bool) (e : String),
      (init_log d (.error e)).outcome = .exited (-1) := by
  refine ⟨rfl, rfl, rfl, rfl, fun d e => ?_⟩
  cases d <;> rfl

end RustInPeace
